import Mathlib

/-!
Shallow embedding of the trading bot in `src/a.py` (single-symbol Binance
testnet bot): price clamping (`clamp_price`), market order placement with
virtual PnL bookkeeping (`place_market_order`), limit order price formatting
(`place_limit_order`), and one tick of the polling strategy loop
(`auto_strategy`).

Prices and balances are modelled as rationals.  Python `None`-able prices are
`Option ℚ`; Python truthiness (`if not current_price:`, `if last_entry_price:`)
is modelled faithfully, so a price of `0` counts as "unavailable" and an entry
price of `0` counts as "no position".  Network calls are oracles passed as
arguments: the price returned by `get_price` (`Option ℚ`, `none` on a caught
fetch error) and whether `client.create_order` succeeds (`Bool`).  An uncaught
Python exception escaping the loop body is modelled as an explicit outcome.
-/

/-- Price filters of a symbol, as read from `filters["PRICE_FILTER"]` in
`get_price_filters` / `clamp_price`. -/
structure PriceFilters where
  tickSize : ℚ
  minPrice : ℚ
  maxPrice : ℚ
deriving DecidableEq

/-- Model of the Python built-in `round` on the exact value: round to the
nearest integer, ties to the even integer (bankers rounding). -/
def pyRound (q : ℚ) : ℤ :=
  if q - (⌊q⌋ : ℚ) < 1/2 then ⌊q⌋
  else if 1/2 < q - (⌊q⌋ : ℚ) then ⌊q⌋ + 1
  else if ⌊q⌋ % 2 = 0 then ⌊q⌋ else ⌊q⌋ + 1

/-- Model of `clamp_price(price, filters)` from `src/a.py`: round to the nearest tick
(`round(price / tick_size) * tick_size`), then clip into
`[min_price, max_price]` via `max(min(price, max_price), min_price)`. -/
def clamp_price (price : ℚ) (filters : PriceFilters) : ℚ :=
  let rounded := (pyRound (price / filters.tickSize) : ℚ) * filters.tickSize
  max (min rounded filters.maxPrice) filters.minPrice

/-- Holds when `v` is an integer multiple of the tick `t`. -/
def isTickMultiple (v t : ℚ) : Prop :=
  ∃ n : ℤ, v = (n : ℚ) * t

/-- Half-away-from-zero rounding of a rational to an integer (a tie goes to
the integer of greater magnitude). -/
def roundHalfAwayFromZero (q : ℚ) : ℤ :=
  if 0 ≤ q then ⌊q + 1/2⌋ else -⌊-q + 1/2⌋

/-- The clamp as the spec describes it: round the quotient
half-away-from-zero to the nearest tick, then clip into the price band.
Stated only to compare with the implemented `clamp_price`. -/
def clamp_price_halfAway (price : ℚ) (filters : PriceFilters) : ℚ :=
  let rounded := (roundHalfAwayFromZero (price / filters.tickSize) : ℚ) * filters.tickSize
  max (min rounded filters.maxPrice) filters.minPrice

/-- Order side, mirroring `SIDE_BUY` / `SIDE_SELL`. -/
inductive Side where
  | buy
  | sell
deriving DecidableEq

/-- The mutable globals of the bot touched by `place_market_order`:
`virtual_balance["USDT"]` and `last_entry_price`. -/
structure BotState where
  usdt : ℚ
  last_entry_price : Option ℚ
deriving DecidableEq

/-- Result of one `place_market_order` call: whether `client.create_order`
was invoked, and the globals afterwards. -/
structure MarketOrderOutcome where
  submitted : Bool
  state : BotState
deriving DecidableEq

/-- Python truthiness of an optional price: `None` and `0.0` are falsy. -/
def truthyQ : Option ℚ → Bool
  | none => false
  | some x => decide (x ≠ 0)

/-- Model of `place_market_order(side)` from `src/a.py`.  `priceRes` is what
`get_price()` returns inside the call; `orderOk` is whether
`client.create_order` succeeds (an exception is caught and leaves the
globals untouched).  On a successful BUY the entry price is set to the
quote; on a successful SELL, if an entry price is recorded (truthy), the
PnL `(current - last_entry_price) * qty` is added to the balance and the
entry price is cleared, otherwise nothing changes. -/
def place_market_order (side : Side) (qty : ℚ) (priceRes : Option ℚ)
    (orderOk : Bool) (s : BotState) : MarketOrderOutcome :=
  match priceRes with
  | none => ⟨false, s⟩
  | some current =>
    if current = 0 then ⟨false, s⟩
    else if orderOk then
      match side with
      | .buy => ⟨true, { s with last_entry_price := some current }⟩
      | .sell =>
        match s.last_entry_price with
        | none => ⟨true, s⟩
        | some e =>
          if e = 0 then ⟨true, s⟩
          else ⟨true, ⟨s.usdt + (current - e) * qty, none⟩⟩
    else ⟨true, s⟩

/-- Model of the format `f"{v:.2f}"` applied to the limit price: the value actually sent to the
exchange, i.e. `v` rounded to two decimal places (ties to even on the exact
value). -/
def format_2f (v : ℚ) : ℚ :=
  (pyRound (v * 100) : ℚ) / 100

/-- The two prices produced by `place_limit_order` for a desired user price:
first the clamped price reported to the caller (`valid_price`), second the
price actually submitted in the order (`price=f"{valid_price:.2f}"`). -/
def place_limit_order_prices (userPrice : ℚ) (filters : PriceFilters) : ℚ × ℚ :=
  let valid_price := clamp_price userPrice filters
  (valid_price, format_2f valid_price)

/-- The state carried across iterations of `auto_strategy`: the bot globals
plus `start_price`, the reference price fixed before the loop. -/
structure AutoState where
  bot : BotState
  start_price : ℚ
deriving DecidableEq

/-- Outcome of one loop iteration of `auto_strategy`: either the loop
continues with a new state, or an uncaught `TypeError` (from
`current - None`) escapes the iteration — only `KeyboardInterrupt` is
caught by the loop body. -/
inductive TickOutcome where
  | ok (st : AutoState)
  | typeErr
deriving DecidableEq

/-- One iteration of the `while True` body of `auto_strategy` from
`src/a.py`.  `tickPrice` is the `get_price()` result of this tick,
`innerPrice` the `get_price()` result inside a `place_market_order` call
made this tick, `orderOk` whether that order succeeds.  Faithful details:
the change is measured against the fixed `start_price`; after a BUY the code
sets `last_entry_price = current` unconditionally; after a SELL it computes
`(current - last_entry_price) * qty` with the post-call entry price —
a `TypeError` if that is `None` — adds it to the balance and clears the
entry price. -/
def auto_strategy_tick (qty : ℚ) (tickPrice innerPrice : Option ℚ)
    (orderOk : Bool) (st : AutoState) : TickOutcome :=
  match tickPrice with
  | none => .ok st
  | some current =>
    if current = 0 then .ok st
    else
      let change := ((current - st.start_price) / st.start_price) * 100
      if change ≤ -(1/5) ∧ truthyQ st.bot.last_entry_price = false then
        let r := place_market_order .buy qty innerPrice orderOk st.bot
        .ok { st with bot := { r.state with last_entry_price := some current } }
      else if (1/5 : ℚ) ≤ change ∧ truthyQ st.bot.last_entry_price = true then
        let r := place_market_order .sell qty innerPrice orderOk st.bot
        match r.state.last_entry_price with
        | none => .typeErr
        | some e => .ok { st with bot := ⟨r.state.usdt + (current - e) * qty, none⟩ }
      else .ok st

/-! ## Helper lemmas about the rounding and the clamp -/

theorem pyRound_near (q : ℚ) : |q - (pyRound q : ℚ)| ≤ 1/2 := by
  have hle : (⌊q⌋ : ℚ) ≤ q := Int.floor_le q
  have hlt : q < ⌊q⌋ + 1 := Int.lt_floor_add_one q
  unfold pyRound
  split_ifs with h1 h2 h3
  · rw [abs_of_nonneg (by linarith)]
    linarith
  · push_cast
    rw [abs_of_nonpos (by linarith)]
    linarith
  · rw [abs_of_nonneg (by linarith)]
    linarith
  · push_cast
    rw [abs_of_nonpos (by linarith)]
    linarith

theorem pyRound_tie_even (q : ℚ) (h : |q - (pyRound q : ℚ)| = 1/2) :
    pyRound q % 2 = 0 := by
  have hle : (⌊q⌋ : ℚ) ≤ q := Int.floor_le q
  have hlt : q < ⌊q⌋ + 1 := Int.lt_floor_add_one q
  unfold pyRound at h ⊢
  split_ifs at h ⊢ with h1 h2 h3
  · rw [abs_of_nonneg (by linarith)] at h
    exfalso
    linarith
  · push_cast at h
    rw [abs_of_nonpos (by linarith)] at h
    exfalso
    linarith
  · exact h3
  · omega

theorem pyRound_intCast (n : ℤ) : pyRound (n : ℚ) = n := by
  unfold pyRound
  rw [Int.floor_intCast]
  norm_num

theorem min_le_clamp_price (p : ℚ) (f : PriceFilters) :
    f.minPrice ≤ clamp_price p f := by
  simp only [clamp_price]
  exact le_max_right _ _

theorem clamp_price_le_max (p : ℚ) (f : PriceFilters)
    (hmm : f.minPrice ≤ f.maxPrice) : clamp_price p f ≤ f.maxPrice := by
  simp only [clamp_price]
  exact max_le (min_le_right _ _) hmm

theorem clamp_price_multiple (p : ℚ) (f : PriceFilters)
    (hmin : isTickMultiple f.minPrice f.tickSize)
    (hmax : isTickMultiple f.maxPrice f.tickSize) :
    isTickMultiple (clamp_price p f) f.tickSize := by
  simp only [clamp_price]
  rcases le_total ((pyRound (p / f.tickSize) : ℚ) * f.tickSize) f.maxPrice with h1 | h1
  · rw [min_eq_left h1]
    rcases le_total ((pyRound (p / f.tickSize) : ℚ) * f.tickSize) f.minPrice with h2 | h2
    · rw [max_eq_right h2]
      exact hmin
    · rw [max_eq_left h2]
      exact ⟨pyRound (p / f.tickSize), rfl⟩
  · rw [min_eq_right h1]
    rcases le_total f.maxPrice f.minPrice with h2 | h2
    · rw [max_eq_right h2]
      exact hmin
    · rw [max_eq_left h2]
      exact hmax

theorem clamp_price_fixed (v : ℚ) (f : PriceFilters) (ht : f.tickSize ≠ 0)
    (hm : isTickMultiple v f.tickSize) (h1 : f.minPrice ≤ v)
    (h2 : v ≤ f.maxPrice) : clamp_price v f = v := by
  rcases hm with ⟨n, rfl⟩
  simp only [clamp_price]
  rw [mul_div_assoc, div_self ht, mul_one, pyRound_intCast, min_eq_left h2,
    max_eq_left h1]

/-! ## Claims -/

/-- Claim C1 (code bug): the spec says a tick whose entry-order submission
fails leaves the state Flat with no entry price recorded.  In the code,
`auto_strategy` sets `last_entry_price = current` unconditionally after the
`place_market_order(SIDE_BUY)` call, so on the failing input below — Flat
state, reference `100`, tick price `99.8` (change `-0.2%`, entry condition
met), order submission failing — the tick still records an entry price of
`99.8` (the reference price is unchanged, as it always is). -/
theorem C1_failed_entry_still_records_position :
    auto_strategy_tick (1/1000) (some (499/5)) (some (499/5)) false
      ⟨⟨10000, none⟩, 100⟩ = .ok ⟨⟨10000, some (499/5)⟩, 100⟩ := by
  norm_num [auto_strategy_tick, place_market_order, truthyQ]

/-- Claim C2, counterexample: on a tick where an entry transition occurs
(Flat with reference `100`, tick price `99.8`, order succeeds, entry price
recorded), the reference price after the tick is still `100`, not the
transition price `99.8` — `auto_strategy` never reassigns `start_price`. -/
theorem C2_entry_transition_leaves_reference_unchanged :
    auto_strategy_tick (1/1000) (some (499/5)) (some (499/5)) true
      ⟨⟨10000, none⟩, 100⟩ = .ok ⟨⟨10000, some (499/5)⟩, 100⟩
    ∧ (100 : ℚ) ≠ 499/5 := by
  constructor
  · norm_num [auto_strategy_tick, place_market_order, truthyQ]
  · norm_num

/-- Claim C2, amended: the reference price (`start_price`) is never updated
by any tick of the strategy loop — neither on transitions nor on
unreadable-price ticks; it stays at the value observed at strategy start. -/
theorem C2_reference_price_never_updated (qty : ℚ) (tp ip : Option ℚ)
    (ok : Bool) (st st' : AutoState)
    (h : auto_strategy_tick qty tp ip ok st = .ok st') :
    st'.start_price = st.start_price := by
  cases tp with
  | none =>
    simp only [auto_strategy_tick] at h
    injection h with h1
    rw [← h1]
  | some current =>
    simp only [auto_strategy_tick] at h
    split_ifs at h with h0 h1 h2
    · injection h with h1
      rw [← h1]
    · injection h with h1
      rw [← h1]
    · split at h
      · exact absurd h (by simp)
      · injection h with h1
        rw [← h1]
    · injection h with h1
      rw [← h1]

/-- Witness for the amended C2 at a concrete entry tick. -/
theorem C2_reference_price_never_updated_witness :
    (AutoState.mk ⟨10000, some (499/5)⟩ 100).start_price
      = (AutoState.mk ⟨10000, none⟩ 100).start_price :=
  C2_reference_price_never_updated (1/1000) (some (499/5)) (some (499/5)) true
    ⟨⟨10000, none⟩, 100⟩ ⟨⟨10000, some (499/5)⟩, 100⟩
    (by norm_num [auto_strategy_tick, place_market_order, truthyQ])

/-- Claim C3: a confirmed market buy at quote `E` followed by a confirmed
market sell at quote `X` adds exactly `(X - E) * qty` to the running
balance, returns the state to Flat and clears the entry price (for any
starting state; the buy overwrites any previous entry price). -/
theorem C3_entry_exit_pnl (s : BotState) (qty E X : ℚ) (hE : E ≠ 0)
    (hX : X ≠ 0) :
    (place_market_order .sell qty (some X) true
        (place_market_order .buy qty (some E) true s).state).state
      = ⟨s.usdt + (X - E) * qty, none⟩ := by
  simp [place_market_order, hE, hX]

/-- Witness for C3: entry at `99.8`, exit at `100`, quantity `0.001`. -/
theorem C3_entry_exit_pnl_witness :
    (place_market_order .sell (1/1000) (some 100) true
        (place_market_order .buy (1/1000) (some (499/5)) true
          ⟨10000, none⟩).state).state
      = ⟨10000 + (100 - 499/5) * (1/1000), none⟩ :=
  C3_entry_exit_pnl ⟨10000, none⟩ (1/1000) (499/5) 100 (by norm_num) (by norm_num)

/-- Claim C4 (code bug): the claim says only cancellation or a startup
failure ends the run.  On a tick with a SUCCESSFUL exit fill (Long with
entry `99.8`, reference `100`, tick price `100.2`, order succeeds),
`place_market_order` clears `last_entry_price`, and `auto_strategy` then
evaluates `(current - last_entry_price) * TRADE_QTY` with
`last_entry_price = None` — an uncaught `TypeError` that terminates the
loop (only `KeyboardInterrupt` is caught). -/
theorem C4_successful_exit_crashes_loop :
    auto_strategy_tick (1/1000) (some (501/5)) (some (501/5)) true
      ⟨⟨10000, some (499/5)⟩, 100⟩ = .typeErr := by
  norm_num [auto_strategy_tick, place_market_order, truthyQ]

/-- Claim C5, counterexample: a market buy while a position is already open
(entry price `100` recorded) does not fail — it submits the order and
overwrites the entry price with the new quote `90`, a state change where
the claim requires an `InvalidTransition` failure with no state change. -/
theorem C5_entry_while_long_changes_state :
    (place_market_order .buy (1/1000) (some 90) true ⟨10000, some 100⟩).state
        = ⟨10000, some 90⟩
    ∧ (BotState.mk 10000 (some 90)) ≠ ⟨10000, some 100⟩ := by
  constructor
  · norm_num [place_market_order]
  · norm_num

/-- Claim C5, amended: `place_market_order` performs no transition gating
and has no `InvalidTransition` failure: a buy always submits and sets the
entry price to the current quote (overwriting any existing one), and a sell
with no recorded entry price still submits the order and leaves the state
unchanged. -/
theorem C5_no_transition_gating (s : BotState) (qty p : ℚ) (hp : p ≠ 0) :
    place_market_order .buy qty (some p) true s
        = ⟨true, { s with last_entry_price := some p }⟩
    ∧ (s.last_entry_price = none →
        place_market_order .sell qty (some p) true s = ⟨true, s⟩) := by
  constructor
  · simp [place_market_order, hp]
  · intro h
    simp [place_market_order, hp, h]

/-- Witness for the amended C5 at a concrete state and quote. -/
theorem C5_no_transition_gating_witness :
    place_market_order .buy (1/1000) (some 90) true ⟨10000, none⟩
        = ⟨true, ⟨10000, some 90⟩⟩
    ∧ place_market_order .sell (1/1000) (some 90) true ⟨10000, none⟩
        = ⟨true, ⟨10000, none⟩⟩ :=
  ⟨(C5_no_transition_gating ⟨10000, none⟩ (1/1000) 90 (by norm_num)).1,
    (C5_no_transition_gating ⟨10000, none⟩ (1/1000) 90 (by norm_num)).2 rfl⟩

/-- Claim C6, counterexample: with tickSize `1`, minPrice `1/2`,
maxPrice `10` (positive tick, `minPrice <= maxPrice`, all positive), the
desired price `0` is rounded to `0` and then clipped up to `minPrice = 1/2`,
which is not an integer multiple of the tick — refuting the claim that the
clamped price is always a tick multiple. -/
theorem C6_clamped_price_can_miss_tick_grid :
    ((0 : ℚ) < 1 ∧ (0 : ℚ) < 1/2 ∧ (1/2 : ℚ) ≤ 10)
    ∧ clamp_price 0 ⟨1, 1/2, 10⟩ = 1/2
    ∧ ¬ isTickMultiple (1/2) 1 := by
  refine ⟨⟨by norm_num, by norm_num, by norm_num⟩, ?_, ?_⟩
  · norm_num [clamp_price, pyRound, min_def, max_def]
  · rintro ⟨n, hn⟩
    rw [mul_one] at hn
    have h2 : ((2 * n : ℤ) : ℚ) = 1 := by
      push_cast
      linarith
    have h3 : (2 * n : ℤ) = 1 := by exact_mod_cast h2
    omega

/-- Claim C6, amended: under positive tickSize and `minPrice <= maxPrice`
the clamped price always lies in `[minPrice, maxPrice]`; it is an integer
multiple of tickSize provided minPrice and maxPrice are themselves tick
multiples (without that extra alignment assumption the multiple part fails,
see the counterexample). -/
theorem C6_clamp_bounds_and_grid (p : ℚ) (f : PriceFilters)
    (ht : 0 < f.tickSize) (hmm : f.minPrice ≤ f.maxPrice) :
    f.minPrice ≤ clamp_price p f ∧ clamp_price p f ≤ f.maxPrice
    ∧ (isTickMultiple f.minPrice f.tickSize →
        isTickMultiple f.maxPrice f.tickSize →
        isTickMultiple (clamp_price p f) f.tickSize) :=
  ⟨min_le_clamp_price p f, clamp_price_le_max p f hmm,
    fun h1 h2 => clamp_price_multiple p f h1 h2⟩

/-- Witness for the amended C6 at `p = 25`, tick `10`, band `[10, 1000000]`. -/
theorem C6_clamp_bounds_and_grid_witness :
    (10 : ℚ) ≤ clamp_price 25 ⟨10, 10, 1000000⟩
    ∧ clamp_price 25 ⟨10, 10, 1000000⟩ ≤ 1000000
    ∧ isTickMultiple (clamp_price 25 ⟨10, 10, 1000000⟩) 10 := by
  have h := C6_clamp_bounds_and_grid 25 ⟨10, 10, 1000000⟩ (by norm_num) (by norm_num)
  exact ⟨h.1, h.2.1, h.2.2 ⟨1, by norm_num⟩ ⟨100000, by norm_num⟩⟩

/-- Claim C7, counterexample: for desired price `25` with tickSize `10` the
quotient `2.5` is exactly halfway; half-away-from-zero rounding (what the
claim asserts) gives `30`, but the code (Python `round`, ties to even)
gives `20`. -/
theorem C7_tie_rounds_to_even_not_away :
    clamp_price 25 ⟨10, 10, 1000000⟩ = 20
    ∧ clamp_price_halfAway 25 ⟨10, 10, 1000000⟩ = 30 := by
  constructor
  · have h : ⌊(5/2 : ℚ)⌋ = 2 := by
      rw [Int.floor_eq_iff]
      norm_num
    norm_num [clamp_price, pyRound, h, min_def, max_def]
  · have h : ⌊(3 : ℚ)⌋ = 3 := by
      rw [Int.floor_eq_iff]
      norm_num
    norm_num [clamp_price_halfAway, roundHalfAwayFromZero, h, min_def, max_def]

/-- Claim C7, amended: the clamp rounds the quotient `p / tickSize` to a
nearest integer `n` (within `1/2`), with a tie (distance exactly `1/2`)
resolved to the EVEN integer — Python bankers rounding, not
half-away-from-zero — and then clips `n * tickSize` into
`[minPrice, maxPrice]`. -/
theorem C7_clamp_rounds_nearest_tie_even (p : ℚ) (f : PriceFilters) :
    ∃ n : ℤ, clamp_price p f
        = max (min ((n : ℚ) * f.tickSize) f.maxPrice) f.minPrice
      ∧ |p / f.tickSize - (n : ℚ)| ≤ 1/2
      ∧ (|p / f.tickSize - (n : ℚ)| = 1/2 → n % 2 = 0) :=
  ⟨pyRound (p / f.tickSize), rfl, pyRound_near _, fun h => pyRound_tie_even _ h⟩

/-- Claim C8, counterexample: with tickSize `1`, minPrice `3/5`,
maxPrice `10` (a valid constraints record per the data model: positive tick,
positive band, `minPrice <= maxPrice`), `clamp(0) = 3/5` but
`clamp(3/5) = 1`, so the clamp is not idempotent. -/
theorem C8_clamp_not_idempotent :
    ((0 : ℚ) < 1 ∧ (0 : ℚ) < 3/5 ∧ (3/5 : ℚ) ≤ 10)
    ∧ clamp_price (clamp_price 0 ⟨1, 3/5, 10⟩) ⟨1, 3/5, 10⟩
        ≠ clamp_price 0 ⟨1, 3/5, 10⟩ := by
  have h1 : clamp_price 0 ⟨1, 3/5, 10⟩ = 3/5 := by
    norm_num [clamp_price, pyRound, min_def, max_def]
  have h0 : ⌊(3/5 : ℚ)⌋ = 0 := by
    rw [Int.floor_eq_iff]
    norm_num
  have h2 : clamp_price (3/5) ⟨1, 3/5, 10⟩ = 1 := by
    norm_num [clamp_price, pyRound, h0, min_def, max_def]
  refine ⟨⟨by norm_num, by norm_num, by norm_num⟩, ?_⟩
  rw [h1, h2]
  norm_num

/-- Claim C8, amended: the clamp is idempotent whenever minPrice and
maxPrice are themselves integer multiples of the (positive) tickSize;
without that alignment it is not (see the counterexample). -/
theorem C8_clamp_idempotent_on_grid (p : ℚ) (f : PriceFilters)
    (ht : 0 < f.tickSize) (hmm : f.minPrice ≤ f.maxPrice)
    (hmin : isTickMultiple f.minPrice f.tickSize)
    (hmax : isTickMultiple f.maxPrice f.tickSize) :
    clamp_price (clamp_price p f) f = clamp_price p f :=
  clamp_price_fixed _ f (ne_of_gt ht) (clamp_price_multiple p f hmin hmax)
    (min_le_clamp_price p f) (clamp_price_le_max p f hmm)

/-- Witness for the amended C8 at `p = 25`, tick `10`, band `[10, 1000000]`. -/
theorem C8_clamp_idempotent_on_grid_witness :
    clamp_price (clamp_price 25 ⟨10, 10, 1000000⟩) ⟨10, 10, 1000000⟩
      = clamp_price 25 ⟨10, 10, 1000000⟩ :=
  C8_clamp_idempotent_on_grid 25 ⟨10, 10, 1000000⟩ (by norm_num) (by norm_num)
    ⟨1, by norm_num⟩ ⟨100000, by norm_num⟩

/-- Claim C9: the price submitted for a limit order is the clamped price
formatted to two decimal places, and whenever the clamped price is not an
integer multiple of `0.01` (not representable with two decimals), the
submitted price differs from the clamped price reported to the caller. -/
theorem C9_limit_submitted_vs_reported (u : ℚ) (f : PriceFilters)
    (h : ¬ isTickMultiple (clamp_price u f) (1/100)) :
    (place_limit_order_prices u f).2 = format_2f (clamp_price u f)
    ∧ (place_limit_order_prices u f).2 ≠ (place_limit_order_prices u f).1 := by
  refine ⟨rfl, ?_⟩
  simp only [place_limit_order_prices]
  intro hEq
  apply h
  refine ⟨pyRound (clamp_price u f * 100), ?_⟩
  nth_rewrite 1 [← hEq]
  simp only [format_2f]
  ring

/-- Witness for C9: user price `0.123` with tick `0.001` clamps to `0.123`,
which is not a multiple of `0.01`, so the submitted two-decimal price
differs from the reported clamped price. -/
theorem C9_limit_submitted_vs_reported_witness :
    (place_limit_order_prices (123/1000) ⟨1/1000, 1/1000, 1000000⟩).2
        = format_2f (clamp_price (123/1000) ⟨1/1000, 1/1000, 1000000⟩)
    ∧ (place_limit_order_prices (123/1000) ⟨1/1000, 1/1000, 1000000⟩).2
        ≠ (place_limit_order_prices (123/1000) ⟨1/1000, 1/1000, 1000000⟩).1 :=
  C9_limit_submitted_vs_reported (123/1000) ⟨1/1000, 1/1000, 1000000⟩ (by
    have h0 : ⌊(123 : ℚ)⌋ = 123 := by
      rw [Int.floor_eq_iff]
      norm_num
    have hclamp : clamp_price (123/1000) ⟨1/1000, 1/1000, 1000000⟩ = 123/1000 := by
      norm_num [clamp_price, pyRound, h0, min_def, max_def]
    rw [hclamp]
    rintro ⟨n, hn⟩
    have h2 : ((10 * n : ℤ) : ℚ) = 123 := by
      push_cast
      linarith
    have h3 : (10 * n : ℤ) = 123 := by exact_mod_cast h2
    omega)

/-- Claim C10: a market sell while no position is open (entry price absent)
still submits the order to the exchange, and on success both the balance
and the entry-price state are unchanged. -/
theorem C10_sell_while_flat_is_noop (s : BotState) (qty p : ℚ)
    (hp : p ≠ 0) (h : s.last_entry_price = none) :
    place_market_order .sell qty (some p) true s = ⟨true, s⟩ := by
  simp [place_market_order, hp, h]

/-- Witness for C10 at a concrete flat state and quote. -/
theorem C10_sell_while_flat_is_noop_witness :
    place_market_order .sell (1/1000) (some 80) true ⟨5000, none⟩
      = ⟨true, ⟨5000, none⟩⟩ :=
  C10_sell_while_flat_is_noop ⟨5000, none⟩ (1/1000) 80 (by norm_num) rfl
